import Mathlib

/-!
Verification of `generate_icons.py` (FileLocker repository).

The script procedurally draws a padlock icon onto a circular blue
background and writes PNG files.  We embed it shallowly:

* Numeric geometry is modelled over `ℚ` (the Python decimal literals
  `0.6`, `0.4`, `0.1`, `0.5` are exact rationals here).
* A PIL image is a width, a height and a pixel map; colours are RGBA
  quadruples of naturals.  PIL extends an RGB fill `(r,g,b)` on an RGBA
  image with alpha `255`.
* The PIL drawing primitives `ellipse`, `rectangle` and
  `rounded_rectangle` are modelled with ideal center-sampling
  rasterization: pixel `(x, y)` is painted exactly when its center
  `(x + 1/2, y + 1/2)` lies in the closed continuous region of the shape.
* The side effects of the script (directory creation, file writes,
  console prints) are modelled as a trace of effects, and the
  filesystem as a map from paths to images.
-/

/-- RGBA colour, each channel a natural number (0–255 in practice). -/
abbrev Color := ℕ × ℕ × ℕ × ℕ

/-- The fully transparent colour `(0, 0, 0, 0)` used for the new canvas. -/
def transparentColor : Color := (0, 0, 0, 0)

/-- The fixed blue background fill `fill=(0, 102, 204)`; PIL extends the
RGB triple with alpha 255 on an RGBA image. -/
def blueColor : Color := (0, 102, 204, 255)

/-- The white fill `fill=(255, 255, 255)` of the padlock glyph, with the
implied PIL alpha 255. -/
def whiteColor : Color := (255, 255, 255, 255)

/-- A drawing primitive of `ImageDraw` as used by the script: a filled
ellipse given by its bounding box, a filled axis-aligned rectangle, or a
filled rounded rectangle with a corner radius. -/
inductive Shape
  | ellipse (x0 y0 x1 y1 : ℚ)
  | rect (x0 y0 x1 y1 : ℚ)
  | rrect (x0 y0 x1 y1 r : ℚ)
deriving DecidableEq

/-- Is the shape an unrounded rectangle? -/
def Shape.isRect : Shape → Bool
  | .rect _ _ _ _ => true
  | _ => false

/-- Membership of the point `(p, q)` in the closed continuous region of a
shape.  The ellipse inscribed in bbox `(x0,y0)-(x1,y1)` is written in the
multiplied-out form to avoid division; the rounded rectangle is the union
of two inset rectangles (the cross) and the four corner discs. -/
def Shape.covers : Shape → ℚ → ℚ → Prop
  | .ellipse x0 y0 x1 y1, p, q =>
      (p - (x0 + x1) / 2) ^ 2 * ((y1 - y0) / 2) ^ 2
        + (q - (y0 + y1) / 2) ^ 2 * ((x1 - x0) / 2) ^ 2
        ≤ ((x1 - x0) / 2) ^ 2 * ((y1 - y0) / 2) ^ 2
  | .rect x0 y0 x1 y1, p, q => x0 ≤ p ∧ p ≤ x1 ∧ y0 ≤ q ∧ q ≤ y1
  | .rrect x0 y0 x1 y1 r, p, q =>
      (x0 ≤ p ∧ p ≤ x1 ∧ y0 + r ≤ q ∧ q ≤ y1 - r)
      ∨ (x0 + r ≤ p ∧ p ≤ x1 - r ∧ y0 ≤ q ∧ q ≤ y1)
      ∨ (p - (x0 + r)) ^ 2 + (q - (y0 + r)) ^ 2 ≤ r ^ 2
      ∨ (p - (x1 - r)) ^ 2 + (q - (y0 + r)) ^ 2 ≤ r ^ 2
      ∨ (p - (x0 + r)) ^ 2 + (q - (y1 - r)) ^ 2 ≤ r ^ 2
      ∨ (p - (x1 - r)) ^ 2 + (q - (y1 - r)) ^ 2 ≤ r ^ 2

instance (s : Shape) (p q : ℚ) : Decidable (s.covers p q) := by
  cases s <;> (unfold Shape.covers; infer_instance)

/-- An in-memory PIL image: dimensions plus a pixel map. -/
structure PILImage where
  width : ℕ
  height : ℕ
  px : ℕ → ℕ → Color

/-- `Image.new` in RGBA mode: a `w × h` canvas with every
pixel holding the colour `c`. -/
def PILImage.new (w h : ℕ) (c : Color) : PILImage :=
  { width := w, height := h, px := fun _ _ => c }

/-- Line 12 of the script: the freshly allocated canvas
`Image.new` in RGBA mode with dimensions `(size*scale, size*scale)` and
`color=(0,0,0,0)`. -/
def initialCanvas (size scale : ℕ) : PILImage :=
  PILImage.new (size * scale) (size * scale) transparentColor

/-- The canvas dimension `size * scale` as a rational. -/
def canvasDim (size scale : ℕ) : ℚ := ((size * scale : ℕ) : ℚ)

/-- `lock_width = size * scale * 0.6` (line 20). -/
def lock_width (size scale : ℕ) : ℚ := canvasDim size scale * 0.6

/-- `lock_height = size * scale * 0.6` (line 21). -/
def lock_height (size scale : ℕ) : ℚ := canvasDim size scale * 0.6

/-- `lock_x = (size * scale - lock_width) / 2` (line 22). -/
def lock_x (size scale : ℕ) : ℚ :=
  (canvasDim size scale - lock_width size scale) / 2

/-- `lock_y = (size * scale - lock_height) / 2` (line 23). -/
def lock_y (size scale : ℕ) : ℚ :=
  (canvasDim size scale - lock_height size scale) / 2

/-- `shackle_width = lock_width * 0.1` (line 32). -/
def shackle_width (size scale : ℕ) : ℚ := lock_width size scale * 0.1

/-- The five filled shapes drawn by `create_icon`, in drawing order with
their fill colours (lines 16–48 of the script): the blue background
ellipse over the whole canvas, the white rounded-rectangle lock body, and
the three white shackle rectangles. -/
def createIconShapes (size scale : ℕ) : List (Shape × Color) :=
  let S := canvasDim size scale
  let lw := lock_width size scale
  let lh := lock_height size scale
  let lx := lock_x size scale
  let ly := lock_y size scale
  let sw := shackle_width size scale
  [ (Shape.ellipse 0 0 S S, blueColor),
    (Shape.rrect lx (ly + lh * 0.4) (lx + lw) (ly + lh) (lw * 0.1), whiteColor),
    (Shape.rect (lx + lw * 0.3) ly (lx + lw * 0.7) (ly + lh * 0.5), whiteColor),
    (Shape.rect (lx + lw * 0.3 - sw) ly (lx + lw * 0.3 + sw) (ly + lh * 0.5), whiteColor),
    (Shape.rect (lx + lw * 0.7 - sw) ly (lx + lw * 0.7 + sw) (ly + lh * 0.5), whiteColor) ]

/-- Paint a list of filled shapes, in order, over a starting colour at the
pixel whose center is `(x + 1/2, y + 1/2)`: each shape that covers the
center overwrites the accumulated colour. -/
def renderPixel (shapes : List (Shape × Color)) (x y : ℕ) (start : Color) : Color :=
  shapes.foldl
    (fun c sc => if sc.1.covers ((x : ℚ) + 1 / 2) ((y : ℚ) + 1 / 2) then sc.2 else c)
    start

/-- The image produced by `create_icon` just before `img.save`: the
initial transparent canvas with all five shapes drawn over it. -/
def createIconImage (size scale : ℕ) : PILImage :=
  { width := size * scale, height := size * scale,
    px := fun x y =>
      renderPixel (createIconShapes size scale) x y ((initialCanvas size scale).px x y) }

/-- The fixed output directory (line 6 of the script). -/
def icon_dir : String := "FileLocker/Assets.xcassets/AppIcon.appiconset"

/-- Filename construction of lines 51–54: base `app_icon_{size}x{size}`,
an `@{scale}x` segment exactly when `scale > 1`, then the `.png` suffix. -/
def filename (size scale : ℕ) : String :=
  let f := "app_icon_" ++ toString size ++ "x" ++ toString size
  let f := if scale > 1 then f ++ "@" ++ toString scale ++ "x" else f
  f ++ ".png"

/-- `os.path.join(icon_dir, filename)` (line 55); `icon_dir` has no
trailing slash, so the join inserts exactly one `/`. -/
def filepath (size scale : ℕ) : String := icon_dir ++ "/" ++ filename size scale

/-- An observable side effect of the script: `os.makedirs(path,
exist_ok=ok)`, `img.save(path)`, or a console print. -/
inductive Effect
  | makedirs (path : String) (existOk : Bool)
  | write (path : String) (img : PILImage)
  | print (msg : String)

/-- Is the effect a directory creation? -/
def Effect.isMakedirs : Effect → Bool
  | .makedirs _ _ => true
  | _ => false

/-- Is the effect a file write? -/
def Effect.isWrite : Effect → Bool
  | .write _ _ => true
  | _ => false

/-- The path and dimensions of a write effect, if it is one. -/
def Effect.writeInfo : Effect → Option (String × ℕ × ℕ)
  | .write p img => some (p, img.width, img.height)
  | _ => none

/-- The effects of one `create_icon(size, scale)` call: save the drawn
image to the computed path, then print the confirmation line (lines
56–57).  Note the function itself performs no directory creation. -/
def createIconTrace (size scale : ℕ) : List Effect :=
  [ Effect.write (filepath size scale) (createIconImage size scale),
    Effect.print ("生成图标: " ++ filepath size scale) ]

/-- The whole script run: the module-level `os.makedirs(icon_dir,
exist_ok=True)` (line 7), then `create_icon(512, 1)`, then
`create_icon(512, 2)`, then the completion banner (lines 60–63). -/
def scriptTrace : List Effect :=
  [Effect.makedirs icon_dir true]
    ++ createIconTrace 512 1 ++ createIconTrace 512 2
    ++ [Effect.print "图标生成完成!"]

/-- The filesystem as a map from paths to optionally stored images. -/
def FileSystemState := String → Option PILImage

/-- Apply one effect to the filesystem: a write stores (or overwrites)
the image at its path; directory creation and prints leave the file map
unchanged (`exist_ok=True` never fails). -/
def runEffect (fs : FileSystemState) : Effect → FileSystemState
  | .write p img => fun q => if q = p then some img else fs q
  | _ => fs

/-- Run a trace of effects left to right. -/
def runTrace (fs : FileSystemState) (t : List Effect) : FileSystemState :=
  t.foldl runEffect fs

/-- Normalised form of `lock_x`: 20% of the canvas dimension. -/
lemma lock_x_eq (size scale : ℕ) :
    lock_x size scale = 2 / 10 * canvasDim size scale := by
  simp only [lock_x, lock_width]; ring

/-- Normalised form of `lock_y`: 20% of the canvas dimension. -/
lemma lock_y_eq (size scale : ℕ) :
    lock_y size scale = 2 / 10 * canvasDim size scale := by
  simp only [lock_y, lock_height]; ring

/-- Normalised form of `lock_width`: 60% of the canvas dimension. -/
lemma lock_width_eq (size scale : ℕ) :
    lock_width size scale = 6 / 10 * canvasDim size scale := by
  simp only [lock_width]; ring

/-- Normalised form of `lock_height`: 60% of the canvas dimension. -/
lemma lock_height_eq (size scale : ℕ) :
    lock_height size scale = 6 / 10 * canvasDim size scale := by
  simp only [lock_height, lock_width]; ring

/-- Normalised form of `shackle_width`: 6% of the canvas dimension. -/
lemma shackle_width_eq (size scale : ℕ) :
    shackle_width size scale = 6 / 100 * canvasDim size scale := by
  simp only [shackle_width, lock_width]; ring

/-- The canvas dimension is a cast natural, hence nonnegative. -/
lemma canvasDim_nonneg (size scale : ℕ) : (0 : ℚ) ≤ canvasDim size scale :=
  Nat.cast_nonneg _

/-- A square bound `(a - c)^2 ≤ r^2` with `0 ≤ r` pins `a` to the
interval `[c - r, c + r]`. -/
lemma interval_of_sq_le (a c r : ℚ) (hr : 0 ≤ r) (h : (a - c) ^ 2 ≤ r ^ 2) :
    c - r ≤ a ∧ a ≤ c + r :=
  ⟨by nlinarith [sq_nonneg (a - c - r), sq_nonneg (a - c + r)],
   by nlinarith [sq_nonneg (a - c - r), sq_nonneg (a - c + r)]⟩

/-- Every point of a rounded rectangle (with corners that fit inside the
box) lies in the bounding box of the rectangle. -/
lemma rrect_covers_bbox (x0 y0 x1 y1 r p q : ℚ) (hr : 0 ≤ r)
    (hx : x0 + r + r ≤ x1) (hy : y0 + r + r ≤ y1)
    (h : (Shape.rrect x0 y0 x1 y1 r).covers p q) :
    x0 ≤ p ∧ p ≤ x1 ∧ y0 ≤ q ∧ q ≤ y1 := by
  simp only [Shape.covers] at h
  rcases h with ⟨h1, h2, h3, h4⟩ | ⟨h1, h2, h3, h4⟩ | h | h | h | h
  · exact ⟨h1, h2, by linarith, by linarith⟩
  · exact ⟨by linarith, by linarith, h3, h4⟩
  · obtain ⟨hp1, hp2⟩ := interval_of_sq_le p (x0 + r) r hr
      (by linarith [sq_nonneg (q - (y0 + r))])
    obtain ⟨hq1, hq2⟩ := interval_of_sq_le q (y0 + r) r hr
      (by linarith [sq_nonneg (p - (x0 + r))])
    exact ⟨by linarith, by linarith, by linarith, by linarith⟩
  · obtain ⟨hp1, hp2⟩ := interval_of_sq_le p (x1 - r) r hr
      (by linarith [sq_nonneg (q - (y0 + r))])
    obtain ⟨hq1, hq2⟩ := interval_of_sq_le q (y0 + r) r hr
      (by linarith [sq_nonneg (p - (x1 - r))])
    exact ⟨by linarith, by linarith, by linarith, by linarith⟩
  · obtain ⟨hp1, hp2⟩ := interval_of_sq_le p (x0 + r) r hr
      (by linarith [sq_nonneg (q - (y1 - r))])
    obtain ⟨hq1, hq2⟩ := interval_of_sq_le q (y1 - r) r hr
      (by linarith [sq_nonneg (p - (x0 + r))])
    exact ⟨by linarith, by linarith, by linarith, by linarith⟩
  · obtain ⟨hp1, hp2⟩ := interval_of_sq_le p (x1 - r) r hr
      (by linarith [sq_nonneg (q - (y1 - r))])
    obtain ⟨hq1, hq2⟩ := interval_of_sq_le q (y1 - r) r hr
      (by linarith [sq_nonneg (p - (x1 - r))])
    exact ⟨by linarith, by linarith, by linarith, by linarith⟩

/-- The middle 60% square `[0.2 S, 0.8 S]²` of the canvas lies inside the
background disc inscribed in the canvas. -/
lemma bbox_in_background_disc (S p q : ℚ)
    (hp1 : 2 / 10 * S ≤ p) (hp2 : p ≤ 8 / 10 * S)
    (hq1 : 2 / 10 * S ≤ q) (hq2 : q ≤ 8 / 10 * S) :
    (Shape.ellipse 0 0 S S).covers p q := by
  simp only [Shape.covers]
  have h1 : (p - (0 + S) / 2) ^ 2 ≤ (3 / 10 * S) ^ 2 := by nlinarith
  have h2 : (q - (0 + S) / 2) ^ 2 ≤ (3 / 10 * S) ^ 2 := by nlinarith
  have hS2 : (0 : ℚ) ≤ ((S - 0) / 2) ^ 2 := sq_nonneg _
  nlinarith [mul_le_mul_of_nonneg_right h1 hS2, mul_le_mul_of_nonneg_right h2 hS2,
    sq_nonneg (S ^ 2)]

/-- C1 (counterexample): for size 512, scale 1 the pixel at the image
center `(256, 256)` does NOT hold the fixed blue background fill
`(0, 102, 204)` — the white lock body and shackle are drawn over the
center after the background ellipse. -/
theorem center_pixel_not_background_blue :
    (createIconImage 512 1).px 256 256 ≠ blueColor := by
  have h : (createIconImage 512 1).px 256 256 = whiteColor := by
    simp only [createIconImage, createIconShapes, renderPixel, List.foldl,
      initialCanvas, PILImage.new, canvasDim, lock_width, lock_height, lock_x,
      lock_y, shackle_width]
    norm_num [Shape.covers]
  rw [h]
  decide

/-- C1 (amended): for size 512, scale 1 the pixel at the image center
`(256, 256)` equals the white padlock fill `(255, 255, 255, 255)`; the
fixed blue background value appears away from the glyph, e.g. at
`(256, 40)`. -/
theorem center_pixel_is_lock_white :
    (createIconImage 512 1).px 256 256 = whiteColor ∧
    (createIconImage 512 1).px 256 40 = blueColor := by
  constructor <;>
    (simp only [createIconImage, createIconShapes, renderPixel, List.foldl,
      initialCanvas, PILImage.new, canvasDim, lock_width, lock_height, lock_x,
      lock_y, shackle_width]
     norm_num [Shape.covers])

/-- C2 (counterexample): the renderer invocation `create_icon(512, 1)`
itself performs no directory-creation step at all — `os.makedirs` runs
once at module top level, outside the function. -/
theorem createIcon_trace_has_no_makedirs :
    ¬ ∃ e ∈ createIconTrace 512 1, e.isMakedirs = true := by
  simp [createIconTrace, Effect.isMakedirs]

/-- C2 (amended): the directory-existence step (`os.makedirs` with
`exist_ok=True`, recursive) runs once at script start, before both
renderer invocations, so every file-write effect in the script trace is
preceded by the directory creation of the icon directory. -/
theorem script_makedirs_precedes_writes (i : ℕ) (e : Effect)
    (hget : scriptTrace.get? i = some e) (hw : e.isWrite = true) :
    ∃ j, j < i ∧ scriptTrace.get? j = some (Effect.makedirs icon_dir true) := by
  rcases i with _ | _ | _ | _ | _ | _ | n
  · have he : some (Effect.makedirs icon_dir true) = some e := hget
    obtain rfl := Option.some.inj he
    simp [Effect.isWrite] at hw
  · exact ⟨0, by omega, rfl⟩
  · have he : some (Effect.print ("生成图标: " ++ filepath 512 1)) = some e := hget
    obtain rfl := Option.some.inj he
    simp [Effect.isWrite] at hw
  · exact ⟨0, by omega, rfl⟩
  · have he : some (Effect.print ("生成图标: " ++ filepath 512 2)) = some e := hget
    obtain rfl := Option.some.inj he
    simp [Effect.isWrite] at hw
  · have he : some (Effect.print "图标生成完成!") = some e := hget
    obtain rfl := Option.some.inj he
    simp [Effect.isWrite] at hw
  · have he : (none : Option Effect) = some e := hget
    exact Option.noConfusion he

/-- Witness for C2 (amended) at the first write effect (index 1). -/
theorem script_makedirs_precedes_writes_witness :
    scriptTrace.get? 1 = some (Effect.write (filepath 512 1) (createIconImage 512 1)) ∧
    (Effect.write (filepath 512 1) (createIconImage 512 1)).isWrite = true ∧
    ∃ j, j < 1 ∧ scriptTrace.get? j = some (Effect.makedirs icon_dir true) :=
  ⟨rfl, rfl,
    script_makedirs_precedes_writes 1
      (Effect.write (filepath 512 1) (createIconImage 512 1)) rfl rfl⟩

/-- C3: for every positive size and scale, the lock-body rectangle has
width and height exactly 60% of the canvas dimension, and the left/right
and top/bottom margins are equal (centered on both axes). -/
theorem lock_body_rect_sixty_percent_centered (size scale : ℕ)
    (hs : 0 < size) (hc : 0 < scale) :
    lock_width size scale = 3 / 5 * canvasDim size scale ∧
    lock_height size scale = 3 / 5 * canvasDim size scale ∧
    lock_x size scale
      = canvasDim size scale - (lock_x size scale + lock_width size scale) ∧
    lock_y size scale
      = canvasDim size scale - (lock_y size scale + lock_height size scale) := by
  refine ⟨?_, ?_, ?_, ?_⟩ <;>
    (simp only [lock_width, lock_height, lock_x, lock_y]; ring_nf)

/-- Witness for C3 at size 512, scale 1. -/
theorem lock_body_rect_sixty_percent_centered_witness :
    0 < 512 ∧ 0 < 1 ∧
    (lock_width 512 1 = 3 / 5 * canvasDim 512 1 ∧
     lock_height 512 1 = 3 / 5 * canvasDim 512 1 ∧
     lock_x 512 1 = canvasDim 512 1 - (lock_x 512 1 + lock_width 512 1) ∧
     lock_y 512 1 = canvasDim 512 1 - (lock_y 512 1 + lock_height 512 1)) :=
  ⟨by norm_num, by norm_num,
    lock_body_rect_sixty_percent_centered 512 1 (by norm_num) (by norm_num)⟩

/-- C4: for every positive size and scale, the freshly allocated canvas
is `size*scale` by `size*scale` and every pixel starts fully transparent
`(0, 0, 0, 0)`. -/
theorem canvas_allocation_spec (size scale : ℕ) (hs : 0 < size) (hc : 0 < scale) :
    (initialCanvas size scale).width = size * scale ∧
    (initialCanvas size scale).height = size * scale ∧
    ∀ x y : ℕ, (initialCanvas size scale).px x y = transparentColor :=
  ⟨rfl, rfl, fun _ _ => rfl⟩

/-- Witness for C4 at size 512, scale 1. -/
theorem canvas_allocation_spec_witness :
    0 < 512 ∧ 0 < 1 ∧
    ((initialCanvas 512 1).width = 512 * 1 ∧
     (initialCanvas 512 1).height = 512 * 1 ∧
     ∀ x y : ℕ, (initialCanvas 512 1).px x y = transparentColor) :=
  ⟨by norm_num, by norm_num, canvas_allocation_spec 512 1 (by norm_num) (by norm_num)⟩

/-- C5: the composed filename is `app_icon_{size}x{size}.png` with no
scale suffix when scale = 1, and carries the `@{scale}x` suffix whenever
scale > 1. -/
theorem filename_scale_suffix_spec (size scale : ℕ) (h : 1 < scale) :
    filename size 1
      = "app_icon_" ++ toString size ++ "x" ++ toString size ++ ".png" ∧
    filename size scale
      = "app_icon_" ++ toString size ++ "x" ++ toString size
          ++ "@" ++ toString scale ++ "x" ++ ".png" := by
  unfold filename
  simp [h]

/-- Witness for C5 at size 512, scale 2. -/
theorem filename_scale_suffix_spec_witness :
    1 < 2 ∧
    (filename 512 1
       = "app_icon_" ++ toString 512 ++ "x" ++ toString 512 ++ ".png" ∧
     filename 512 2
       = "app_icon_" ++ toString 512 ++ "x" ++ toString 512
           ++ "@" ++ toString 2 ++ "x" ++ ".png") :=
  ⟨by norm_num, filename_scale_suffix_spec 512 2 (by norm_num)⟩

/-- C8: the entry sequence of the script is the module-level directory
creation, then `create_icon(512, 1)`, then `create_icon(512, 2)`, then
the completion banner; its write effects are exactly the two expected
paths with dimensions 512×512 and 1024×1024, and the final effect is the
banner print. -/
theorem entry_sequence_spec :
    scriptTrace
      = Effect.makedirs icon_dir true
          :: (createIconTrace 512 1
              ++ (createIconTrace 512 2 ++ [Effect.print "图标生成完成!"])) ∧
    scriptTrace.filterMap Effect.writeInfo
      = [("FileLocker/Assets.xcassets/AppIcon.appiconset/app_icon_512x512.png",
          512, 512),
         ("FileLocker/Assets.xcassets/AppIcon.appiconset/app_icon_512x512@2x.png",
          1024, 1024)] ∧
    scriptTrace.getLast? = some (Effect.print "图标生成完成!") :=
  ⟨rfl, rfl, rfl⟩

/-- C9: two runs of the renderer with identical arguments target the one
file path computed by `filepath`, so the write of the second run
overwrites the file of the first run and the filesystem is as after a
single run — no duplicate files accumulate, and writes never fail in the
model. -/
theorem renderer_idempotent_overwrite (size scale : ℕ) (fs : FileSystemState) :
    runTrace fs (createIconTrace size scale ++ createIconTrace size scale)
      = runTrace fs (createIconTrace size scale) := by
  funext p
  simp only [runTrace, createIconTrace, List.cons_append, List.nil_append,
    List.foldl, runEffect]
  by_cases h : p = filepath size scale <;> simp [h]

/-- C6: the second drawn shape is the lock body — a white-filled rounded
rectangle whose vertical extent runs from 40% of the lock height below
the lock-body top down to the full lock height (the lower 60% of the
lock-body region), with corner radius one tenth of the lock width. -/
theorem lock_body_shape_spec (size scale : ℕ) (hs : 0 < size) (hc : 0 < scale) :
    (createIconShapes size scale).get? 1
      = some (Shape.rrect (lock_x size scale)
          (lock_y size scale + 2 / 5 * lock_height size scale)
          (lock_x size scale + lock_width size scale)
          (lock_y size scale + lock_height size scale)
          (1 / 10 * lock_width size scale), whiteColor) := by
  rw [show (createIconShapes size scale).get? 1
      = some (Shape.rrect (lock_x size scale)
          (lock_y size scale + lock_height size scale * 0.4)
          (lock_x size scale + lock_width size scale)
          (lock_y size scale + lock_height size scale)
          (lock_width size scale * 0.1), whiteColor) from rfl,
    show lock_y size scale + lock_height size scale * 0.4
        = lock_y size scale + 2 / 5 * lock_height size scale from by ring,
    show lock_width size scale * 0.1 = 1 / 10 * lock_width size scale from by ring]

/-- Witness for C6 at size 512, scale 1. -/
theorem lock_body_shape_spec_witness :
    0 < 512 ∧ 0 < 1 ∧
    (createIconShapes 512 1).get? 1
      = some (Shape.rrect (lock_x 512 1)
          (lock_y 512 1 + 2 / 5 * lock_height 512 1)
          (lock_x 512 1 + lock_width 512 1)
          (lock_y 512 1 + lock_height 512 1)
          (1 / 10 * lock_width 512 1), whiteColor) :=
  ⟨by norm_num, by norm_num, lock_body_shape_spec 512 1 (by norm_num) (by norm_num)⟩

/-- C7: the shapes drawn after the lock body are exactly three white
unrounded rectangles sharing the vertical span from the lock top to half
the lock height: a central bar from 30% to 70% of the lock width, a left
bar centered at 30% of the lock width with half-width 10% of the lock
width, and a right bar centered at 70% with the same half-width; the
left and right bars reach 20% and 80% of the lock width respectively. -/
theorem shackle_shapes_spec (size scale : ℕ) (hs : 0 < size) (hc : 0 < scale) :
    (createIconShapes size scale).countP (fun sc => sc.1.isRect) = 3 ∧
    (createIconShapes size scale).get? 2
      = some (Shape.rect (lock_x size scale + 3 / 10 * lock_width size scale)
          (lock_y size scale)
          (lock_x size scale + 7 / 10 * lock_width size scale)
          (lock_y size scale + 1 / 2 * lock_height size scale), whiteColor) ∧
    (createIconShapes size scale).get? 3
      = some (Shape.rect
          (lock_x size scale + 3 / 10 * lock_width size scale
            - 1 / 10 * lock_width size scale)
          (lock_y size scale)
          (lock_x size scale + 3 / 10 * lock_width size scale
            + 1 / 10 * lock_width size scale)
          (lock_y size scale + 1 / 2 * lock_height size scale), whiteColor) ∧
    (createIconShapes size scale).get? 4
      = some (Shape.rect
          (lock_x size scale + 7 / 10 * lock_width size scale
            - 1 / 10 * lock_width size scale)
          (lock_y size scale)
          (lock_x size scale + 7 / 10 * lock_width size scale
            + 1 / 10 * lock_width size scale)
          (lock_y size scale + 1 / 2 * lock_height size scale), whiteColor) ∧
    lock_x size scale + 3 / 10 * lock_width size scale
        - 1 / 10 * lock_width size scale
      = lock_x size scale + 1 / 5 * lock_width size scale ∧
    lock_x size scale + 7 / 10 * lock_width size scale
        + 1 / 10 * lock_width size scale
      = lock_x size scale + 4 / 5 * lock_width size scale := by
  refine ⟨rfl, ?_, ?_, ?_, by ring, by ring⟩
  · rw [show (createIconShapes size scale).get? 2
        = some (Shape.rect (lock_x size scale + lock_width size scale * 0.3)
            (lock_y size scale)
            (lock_x size scale + lock_width size scale * 0.7)
            (lock_y size scale + lock_height size scale * 0.5), whiteColor) from rfl,
      show lock_x size scale + lock_width size scale * 0.3
          = lock_x size scale + 3 / 10 * lock_width size scale from by ring,
      show lock_x size scale + lock_width size scale * 0.7
          = lock_x size scale + 7 / 10 * lock_width size scale from by ring,
      show lock_y size scale + lock_height size scale * 0.5
          = lock_y size scale + 1 / 2 * lock_height size scale from by ring]
  · rw [show (createIconShapes size scale).get? 3
        = some (Shape.rect
            (lock_x size scale + lock_width size scale * 0.3
              - shackle_width size scale)
            (lock_y size scale)
            (lock_x size scale + lock_width size scale * 0.3
              + shackle_width size scale)
            (lock_y size scale + lock_height size scale * 0.5), whiteColor) from rfl,
      show lock_x size scale + lock_width size scale * 0.3 - shackle_width size scale
          = lock_x size scale + 3 / 10 * lock_width size scale
              - 1 / 10 * lock_width size scale from by
        simp only [shackle_width]; ring,
      show lock_x size scale + lock_width size scale * 0.3 + shackle_width size scale
          = lock_x size scale + 3 / 10 * lock_width size scale
              + 1 / 10 * lock_width size scale from by
        simp only [shackle_width]; ring,
      show lock_y size scale + lock_height size scale * 0.5
          = lock_y size scale + 1 / 2 * lock_height size scale from by ring]
  · rw [show (createIconShapes size scale).get? 4
        = some (Shape.rect
            (lock_x size scale + lock_width size scale * 0.7
              - shackle_width size scale)
            (lock_y size scale)
            (lock_x size scale + lock_width size scale * 0.7
              + shackle_width size scale)
            (lock_y size scale + lock_height size scale * 0.5), whiteColor) from rfl,
      show lock_x size scale + lock_width size scale * 0.7 - shackle_width size scale
          = lock_x size scale + 7 / 10 * lock_width size scale
              - 1 / 10 * lock_width size scale from by
        simp only [shackle_width]; ring,
      show lock_x size scale + lock_width size scale * 0.7 + shackle_width size scale
          = lock_x size scale + 7 / 10 * lock_width size scale
              + 1 / 10 * lock_width size scale from by
        simp only [shackle_width]; ring,
      show lock_y size scale + lock_height size scale * 0.5
          = lock_y size scale + 1 / 2 * lock_height size scale from by ring]

/-- Witness for C7 at size 512, scale 1. -/
theorem shackle_shapes_spec_witness :
    0 < 512 ∧ 0 < 1 ∧
    ((createIconShapes 512 1).countP (fun sc => sc.1.isRect) = 3 ∧
     (createIconShapes 512 1).get? 2
       = some (Shape.rect (lock_x 512 1 + 3 / 10 * lock_width 512 1)
           (lock_y 512 1)
           (lock_x 512 1 + 7 / 10 * lock_width 512 1)
           (lock_y 512 1 + 1 / 2 * lock_height 512 1), whiteColor) ∧
     (createIconShapes 512 1).get? 3
       = some (Shape.rect
           (lock_x 512 1 + 3 / 10 * lock_width 512 1 - 1 / 10 * lock_width 512 1)
           (lock_y 512 1)
           (lock_x 512 1 + 3 / 10 * lock_width 512 1 + 1 / 10 * lock_width 512 1)
           (lock_y 512 1 + 1 / 2 * lock_height 512 1), whiteColor) ∧
     (createIconShapes 512 1).get? 4
       = some (Shape.rect
           (lock_x 512 1 + 7 / 10 * lock_width 512 1 - 1 / 10 * lock_width 512 1)
           (lock_y 512 1)
           (lock_x 512 1 + 7 / 10 * lock_width 512 1 + 1 / 10 * lock_width 512 1)
           (lock_y 512 1 + 1 / 2 * lock_height 512 1), whiteColor) ∧
     lock_x 512 1 + 3 / 10 * lock_width 512 1 - 1 / 10 * lock_width 512 1
       = lock_x 512 1 + 1 / 5 * lock_width 512 1 ∧
     lock_x 512 1 + 7 / 10 * lock_width 512 1 + 1 / 10 * lock_width 512 1
       = lock_x 512 1 + 4 / 5 * lock_width 512 1) :=
  ⟨by norm_num, by norm_num, shackle_shapes_spec 512 1 (by norm_num) (by norm_num)⟩

/-- C10: for positive size and scale, a pixel whose center lies outside
the background disc (the ellipse inscribed in the full canvas bounds) is
touched by none of the five drawing operations, so after all drawing it
still holds the initial fully transparent value `(0, 0, 0, 0)`. -/
theorem pixels_outside_disc_untouched (size scale x y : ℕ)
    (hs : 0 < size) (hc : 0 < scale)
    (hout : ¬ (Shape.ellipse 0 0 (canvasDim size scale)
        (canvasDim size scale)).covers ((x : ℚ) + 1 / 2) ((y : ℚ) + 1 / 2)) :
    (createIconImage size scale).px x y = transparentColor := by
  have hC : (0 : ℚ) ≤ canvasDim size scale := canvasDim_nonneg size scale
  have hlx := lock_x_eq size scale
  have hly := lock_y_eq size scale
  have hlw := lock_width_eq size scale
  have hlh := lock_height_eq size scale
  have hsw := shackle_width_eq size scale
  have hbody : ¬ (Shape.rrect (lock_x size scale)
      (lock_y size scale + lock_height size scale * 0.4)
      (lock_x size scale + lock_width size scale)
      (lock_y size scale + lock_height size scale)
      (lock_width size scale * 0.1)).covers
      ((x : ℚ) + 1 / 2) ((y : ℚ) + 1 / 2) := by
    intro h
    obtain ⟨b1, b2, b3, b4⟩ := rrect_covers_bbox _ _ _ _ _ _ _
      (by rw [hlw]; linarith)
      (by rw [hlx, hlw]; linarith)
      (by rw [hly, hlh, hlw]; linarith)
      h
    rw [hlx] at b1
    rw [hlx, hlw] at b2
    rw [hly, hlh] at b3
    rw [hly, hlh] at b4
    exact hout (bbox_in_background_disc (canvasDim size scale) _ _
      (by linarith) (by linarith) (by linarith) (by linarith))
  have hbar1 : ¬ (Shape.rect (lock_x size scale + lock_width size scale * 0.3)
      (lock_y size scale)
      (lock_x size scale + lock_width size scale * 0.7)
      (lock_y size scale + lock_height size scale * 0.5)).covers
      ((x : ℚ) + 1 / 2) ((y : ℚ) + 1 / 2) := by
    intro h
    simp only [Shape.covers] at h
    obtain ⟨b1, b2, b3, b4⟩ := h
    rw [hlx, hlw] at b1 b2
    rw [hly] at b3
    rw [hly, hlh] at b4
    exact hout (bbox_in_background_disc (canvasDim size scale) _ _
      (by linarith) (by linarith) (by linarith) (by linarith))
  have hbar2 : ¬ (Shape.rect (lock_x size scale + lock_width size scale * 0.3
        - shackle_width size scale)
      (lock_y size scale)
      (lock_x size scale + lock_width size scale * 0.3
        + shackle_width size scale)
      (lock_y size scale + lock_height size scale * 0.5)).covers
      ((x : ℚ) + 1 / 2) ((y : ℚ) + 1 / 2) := by
    intro h
    simp only [Shape.covers] at h
    obtain ⟨b1, b2, b3, b4⟩ := h
    rw [hlx, hlw, hsw] at b1 b2
    rw [hly] at b3
    rw [hly, hlh] at b4
    exact hout (bbox_in_background_disc (canvasDim size scale) _ _
      (by linarith) (by linarith) (by linarith) (by linarith))
  have hbar3 : ¬ (Shape.rect (lock_x size scale + lock_width size scale * 0.7
        - shackle_width size scale)
      (lock_y size scale)
      (lock_x size scale + lock_width size scale * 0.7
        + shackle_width size scale)
      (lock_y size scale + lock_height size scale * 0.5)).covers
      ((x : ℚ) + 1 / 2) ((y : ℚ) + 1 / 2) := by
    intro h
    simp only [Shape.covers] at h
    obtain ⟨b1, b2, b3, b4⟩ := h
    rw [hlx, hlw, hsw] at b1 b2
    rw [hly] at b3
    rw [hly, hlh] at b4
    exact hout (bbox_in_background_disc (canvasDim size scale) _ _
      (by linarith) (by linarith) (by linarith) (by linarith))
  show renderPixel (createIconShapes size scale) x y
      ((initialCanvas size scale).px x y) = transparentColor
  simp only [createIconShapes, renderPixel, List.foldl, initialCanvas,
    PILImage.new]
  rw [if_neg hbar3, if_neg hbar2, if_neg hbar1, if_neg hbody, if_neg hout]

/-- Witness for C10 at size 512, scale 1, corner pixel (0, 0). -/
theorem pixels_outside_disc_untouched_witness :
    0 < 512 ∧ 0 < 1 ∧
    (¬ (Shape.ellipse 0 0 (canvasDim 512 1) (canvasDim 512 1)).covers
        (((0 : ℕ) : ℚ) + 1 / 2) (((0 : ℕ) : ℚ) + 1 / 2)) ∧
    (createIconImage 512 1).px 0 0 = transparentColor :=
  ⟨by norm_num, by norm_num,
   by norm_num [Shape.covers, canvasDim],
   pixels_outside_disc_untouched 512 1 0 0 (by norm_num) (by norm_num)
     (by norm_num [Shape.covers, canvasDim])⟩
